import Mathlib

/-!
Verification of the Dataflow runner core (`dataflow.go`): option resolution,
artifact naming, the submission orchestration in `Execute`, and the GCS
profile-capture hook `gcsRecorderHook`.

The Go code is shallowly embedded: external collaborators (graph compilation,
job translation, job submission, the GCS client, the JSON label parser and the
container-image lookup) are fields of an environment record, Go `error`
values are strings, and the observable effects of a run (remote calls made,
log lines emitted) are collected in an event trace.
-/

namespace Beam

/-- Go `error` values, modelled by their message text. -/
abbrev Err := String

/-- Opaque pipeline graph produced by `p.Build()`. -/
abbrev Edges := Nat

/-- Opaque portable pipeline model produced by `graphx.Marshal`. -/
abbrev Model := Nat

/-- Opaque translated Dataflow job description. -/
abbrev Job := Nat

/-- Opaque handle to a submitted Dataflow job. -/
abbrev JobHandle := Nat

/-- Opaque GCS storage client. -/
abbrev Client := Nat

/-- Opaque readable byte stream. -/
abbrev Reader := Nat

/-- Modelled from the spec: `gcsx.Join` (defined outside this file) joins a
staging URI with a path element using URI-join semantics, introducing no
duplicate separator. -/
def gcsxJoin (base elm : String) : String :=
  if base.endsWith "/" then base ++ elm else base ++ "/" ++ elm

/-- Modelled from the spec: Go `path.Join` on the trusted prefix and spec
inputs of the capture sink, joining with a single separator and treating an
empty component as absent. -/
def pathJoin (a b : String) : String :=
  if a = "" then b else if b = "" then a else a ++ "/" ++ b

/-- The raw flag/environment inputs read by `Execute` (the package-level
flag variables plus `gcpopts.Project`). -/
structure Inputs where
  project : String
  endpoint : String
  stagingLocation : String
  image : String
  labels : String
  numWorkers : Int
  zone : String
  region : String
  network : String
  tempLocation : String
  machineType : String
  minCPUPlatform : String
  dryRun : Bool
  teardownPolicy : String
  cpuProfiling : String
  sessionRecording : String
  deriving Repr, DecidableEq

/-- Mirror of `dataflowlib.JobOptions` as populated by `Execute`. -/
structure JobOptions where
  Name : String
  Experiments : List String
  Options : String
  Project : String
  Region : String
  Zone : String
  Network : String
  NumWorkers : Int
  MachineType : String
  Labels : Option (List (String × String))
  TempLocation : String
  Worker : String
  TeardownPolicy : String
  deriving Repr, DecidableEq

/-- The external collaborators `Execute` consults, with the values they
return during one run: `jobopts.GetContainerImage`, `jobopts.GetJobName`,
`jobopts.GetExperiments`, `beam.PipelineOptions.Export`,
`jobopts.WorkerBinary`, `p.Build`, `graphx.Marshal`,
`proto.MarshalTextString`, `dataflowlib.Translate`, `dataflowlib.Execute`
(the remote submission) and `json.Unmarshal` on the labels flag, plus the
two `time.Now().UnixNano()` readings. -/
structure Env where
  getContainerImage : String
  jobName : String
  experiments : List String
  exportedOptions : String
  workerBinary : String
  build : Except Err Edges
  marshal : Edges → String → Except Err Model
  marshalText : Model → String
  translate : Model → JobOptions → String → String → Except Err Job
  submit : Model → JobOptions → String → String → String → Except Err JobHandle
  parseLabels : String → Except Err (List (String × String))
  now1 : Nat
  now2 : Nat

/-- The worker harness image used: the flag if set, otherwise the value of
`jobopts.GetContainerImage`. -/
def resolvedImage (inp : Inputs) (env : Env) : String :=
  if inp.image = "" then env.getContainerImage else inp.image

/-- The label-parsing step of `Execute`: an empty labels flag yields no
labels; otherwise the JSON parse either yields the mapping or wraps the
parse error exactly as `fmt.Errorf("error reading --label flag as JSON: %v", err)`. -/
def resolveLabels (inp : Inputs) (env : Env) :
    Except Err (Option (List (String × String))) :=
  if inp.labels = "" then Except.ok none
  else
    match env.parseLabels inp.labels with
    | Except.ok m => Except.ok (some m)
    | Except.error e => Except.error ("error reading --label flag as JSON: " ++ e)

/-- The experiment list: `jobopts.GetExperiments()`, with
`min_cpu_platform=<value>` appended last when the flag is set. -/
def experimentsOf (inp : Inputs) (env : Env) : List String :=
  if inp.minCPUPlatform = "" then env.experiments
  else env.experiments ++ ["min_cpu_platform=" ++ inp.minCPUPlatform]

/-- The `dataflowlib.JobOptions` literal built by `Execute`, including the
defaulting of `TempLocation` to `gcsx.Join(stagingLocation, "tmp")`. -/
def optsOf (inp : Inputs) (env : Env)
    (jobLabels : Option (List (String × String))) : JobOptions :=
  let opts : JobOptions :=
    { Name := env.jobName
      Experiments := experimentsOf inp env
      Options := env.exportedOptions
      Project := inp.project
      Region := inp.region
      Zone := inp.zone
      Network := inp.network
      NumWorkers := inp.numWorkers
      MachineType := inp.machineType
      Labels := jobLabels
      TempLocation := inp.tempLocation
      Worker := env.workerBinary
      TeardownPolicy := inp.teardownPolicy }
  if opts.TempLocation = "" then
    { opts with TempLocation := gcsxJoin inp.stagingLocation "tmp" }
  else opts

/-- The staged model object name `<staging>/model-<id>-<ts>`. -/
def modelURL (staging : String) (id ts : Nat) : String :=
  gcsxJoin staging ("model-" ++ Nat.repr id ++ "-" ++ Nat.repr ts)

/-- The staged worker object name `<staging>/worker-<id>-<ts>`. -/
def workerURL (staging : String) (id ts : Nat) : String :=
  gcsxJoin staging ("worker-" ++ Nat.repr id ++ "-" ++ Nat.repr ts)

/-- A staging plan: the pair of staged object names. -/
structure StagingPlan where
  modelObj : String
  workerObj : String
  deriving Repr, DecidableEq

/-- The artifact-naming step: atomically increment the process-wide counter
(`atomic.AddInt32(&unique, 1)`) and build the two object names from the new
counter value and the two timestamps. Returns the plan and the new counter
value. -/
def nextStagingPlan (staging : String) (u ts1 ts2 : Nat) : StagingPlan × Nat :=
  let id := u + 1
  ({ modelObj := modelURL staging id ts1, workerObj := workerURL staging id ts2 }, id)

/-- Observable effects of one `Execute` run: collaborator calls (with their
arguments) and emitted output. -/
inductive Event where
  | getContainerImage
  | enableProfHook (dest : String)
  | serializeHooks
  | build
  | marshal
  | logInfo (msg : String)
  | translateCall (model : Model) (opts : JobOptions) (workerObj modelObj : String)
  | printJob (job : Job)
  | submitCall (model : Model) (opts : JobOptions) (workerObj modelObj endpoint : String)
  deriving Repr, DecidableEq

/-- True exactly on remote-submission events. -/
def Event.isSubmit : Event → Bool
  | Event.submitCall _ _ _ _ _ => true
  | Event.getContainerImage => false
  | Event.enableProfHook _ => false
  | Event.serializeHooks => false
  | Event.build => false
  | Event.marshal => false
  | Event.logInfo _ => false
  | Event.translateCall _ _ _ _ => false
  | Event.printJob _ => false

/-- True exactly on job-translation events. -/
def Event.isTranslate : Event → Bool
  | Event.translateCall _ _ _ _ => true
  | Event.getContainerImage => false
  | Event.enableProfHook _ => false
  | Event.serializeHooks => false
  | Event.build => false
  | Event.marshal => false
  | Event.logInfo _ => false
  | Event.printJob _ => false
  | Event.submitCall _ _ _ _ _ => false

/-- The Go-level return value of `Execute` (`none` = nil error) together
with the trace of observable effects. -/
structure ExecResult where
  ret : Option Err
  events : List Event
  deriving Repr, DecidableEq

/-- Shallow embedding of `Execute` from `dataflow.go`, in source order:
required-field validation, image defaulting, label parsing, hook enabling and
serialization, option assembly with temp-location defaulting, pipeline build,
model marshalling, staging-name generation from the atomic counter, then
either the dry-run translate/print path or the remote submission. The second
component is the new value of the process-wide counter `unique`. -/
def Execute (inp : Inputs) (env : Env) (unique : Nat) : ExecResult × Nat :=
  if inp.project = "" then
    ({ ret := some "no Google Cloud project specified. Use --project=<project>",
       events := [] }, unique)
  else if inp.stagingLocation = "" then
    ({ ret := some "no GCS staging location specified. Use --staging_location=gs://<bucket>/<path>",
       events := [] }, unique)
  else
    let ev1 : List Event := if inp.image = "" then [Event.getContainerImage] else []
    match resolveLabels inp env with
    | Except.error e => ({ ret := some e, events := ev1 }, unique)
    | Except.ok jobLabels =>
      let ev2 := ev1 ++
        (if inp.cpuProfiling = "" then [] else [Event.enableProfHook inp.cpuProfiling]) ++
        [Event.serializeHooks]
      let opts := optsOf inp env jobLabels
      match env.build with
      | Except.error e => ({ ret := some e, events := ev2 ++ [Event.build] }, unique)
      | Except.ok edges =>
        match env.marshal edges (resolvedImage inp env) with
        | Except.error e =>
          ({ ret := some ("failed to generate model pipeline: " ++ e),
             events := ev2 ++ [Event.build, Event.marshal] }, unique)
        | Except.ok model =>
          let id := unique + 1
          let mURL := modelURL inp.stagingLocation id env.now1
          let wURL := workerURL inp.stagingLocation id env.now2
          let ev3 := ev2 ++ [Event.build, Event.marshal]
          if inp.dryRun then
            let ev4 := ev3 ++
              [Event.logInfo "Dry-run: not submitting job!",
               Event.logInfo (env.marshalText model),
               Event.translateCall model opts wURL mURL]
            match env.translate model opts wURL mURL with
            | Except.error e => ({ ret := some e, events := ev4 }, id)
            | Except.ok job =>
              ({ ret := none, events := ev4 ++ [Event.printJob job] }, id)
          else
            ({ ret :=
                 match env.submit model opts wURL mURL inp.endpoint with
                 | Except.error e => some e
                 | Except.ok _ => none,
               events := ev3 ++ [Event.submitCall model opts wURL mURL inp.endpoint] }, id)

/-- The object-storage collaborator used by the capture sink:
`gcsx.NewClient` and `gcsx.WriteObject`. -/
structure GcsEnv where
  newClient : Except Err Client
  writeObject : Client → String → String → Reader → Option Err

/-- Outcome of one capture invocation: either the client could not be
constructed (the returned error), or an object write was attempted at the
given bucket and object path, with the write's own result. -/
inductive CaptureOutcome where
  | clientError (e : Err)
  | wrote (bucket objPath : String) (res : Option Err)
  deriving Repr, DecidableEq

/-- The Go `error` returned to the caller of the capture function. -/
def CaptureOutcome.retErr : CaptureOutcome → Option Err
  | CaptureOutcome.clientError e => some e
  | CaptureOutcome.wrote _ _ res => res

/-- The closure returned by `gcsRecorderHook`: obtain a GCS client (failure
is wrapped as `couldn't establish GCS client: <cause>`), then write the
stream to `path.Join(prefix, spec)` in the registered bucket. -/
def captureFn (bucket pfx : String) (genv : GcsEnv) (spec : String)
    (r : Reader) : CaptureOutcome :=
  match genv.newClient with
  | Except.error e =>
    CaptureOutcome.clientError ("couldn't establish GCS client: " ++ e)
  | Except.ok client =>
    CaptureOutcome.wrote bucket (pathJoin pfx spec)
      (genv.writeObject client bucket (pathJoin pfx spec) r)

/-- Result of hook registration: either a panic (irrecoverable abort) or a
registered capture function closing over a fixed bucket and prefix. -/
inductive HookResult where
  | panicked (msg : String)
  | registered (bucket pfx : String)
  deriving Repr, DecidableEq

/-- Go `%s` rendering of a string slice, as used in the panic message. -/
def fmtStrSlice (xs : List String) : String :=
  "[" ++ String.intercalate " " xs ++ "]"

/-- Shallow embedding of `gcsRecorderHook`: parse `opts[0]` into a
bucket/prefix pair via the object-storage collaborator `gcsx.ParseObject`
(passed as a parameter); on failure panic, otherwise return the capture
closure over the parsed pair. -/
def gcsRecorderHook (parseObject : String → Except Err (String × String))
    (opts : List String) : HookResult :=
  match opts with
  | [] => HookResult.panicked "index out of range"
  | o :: _ =>
    match parseObject o with
    | Except.error _ =>
      HookResult.panicked
        ("Invalid hook configuration for gcsRecorderHook: " ++ fmtStrSlice opts)
    | Except.ok (bucket, pfx) => HookResult.registered bucket pfx

/-- Invoking the result of registration: a panicked registration has no
capture function to invoke; a registered one runs `captureFn` with the fixed
bucket and prefix. -/
def applyHook : HookResult → GcsEnv → String → Reader → Option CaptureOutcome
  | HookResult.panicked _, _, _, _ => none
  | HookResult.registered bucket pfx, genv, spec, r =>
    some (captureFn bucket pfx genv spec r)

/-- Numeric value of a decimal digit character. -/
def digitVal (c : Char) : Nat := c.toNat - 48

/-- Numeric value of a decimal digit string. -/
def valDigits (l : List Char) : Nat :=
  l.foldl (fun acc c => 10 * acc + digitVal c) 0

/-- Concrete inputs used by the witnesses: a dry-run configuration with all
required fields present. -/
def inpBase : Inputs :=
  { project := "p", endpoint := "ep", stagingLocation := "gs://b/s",
    image := "img", labels := "", numWorkers := 3, zone := "z",
    region := "us-central1", network := "net", tempLocation := "",
    machineType := "mt", minCPUPlatform := "", dryRun := true,
    teardownPolicy := "", cpuProfiling := "", sessionRecording := "" }

/-- Concrete collaborator environment used by the witnesses. -/
def envBase : Env :=
  { getContainerImage := "defimg", jobName := "job", experiments := ["e1"],
    exportedOptions := "xo", workerBinary := "wb",
    build := Except.ok 1,
    marshal := fun _ _ => Except.ok 2,
    marshalText := fun m => "text" ++ Nat.repr m,
    translate := fun _ _ _ _ => Except.ok 7,
    submit := fun _ _ _ _ _ => Except.ok 9,
    parseLabels := fun s =>
      if s = "good" then Except.ok [("a", "b")] else Except.error "bad syntax",
    now1 := 11, now2 := 12 }

/-- The dry-run flag turned off, for the submission-path witnesses. -/
def inpSubmit : Inputs := { inpBase with dryRun := false }

/-- Submission collaborator succeeding with job handle 1. -/
def envSubmitA : Env := { envBase with submit := fun _ _ _ _ _ => Except.ok 1 }

/-- Submission collaborator succeeding with job handle 2. -/
def envSubmitB : Env := { envBase with submit := fun _ _ _ _ _ => Except.ok 2 }

/-- Submission collaborator that fails. -/
def envSubmitErr : Env :=
  { envBase with submit := fun _ _ _ _ _ => Except.error "submit failed" }

/-- Marshalling collaborator that fails. -/
def envMarshalErr : Env :=
  { envBase with marshal := fun _ _ => Except.error "marshal boom" }

/-- Storage collaborator whose client construction succeeds. -/
def genvOk : GcsEnv :=
  { newClient := Except.ok 5, writeObject := fun _ _ _ _ => none }

/-- Storage collaborator whose client construction fails. -/
def genvBad : GcsEnv :=
  { newClient := Except.error "no credentials", writeObject := fun _ _ _ _ => none }

/-- Concrete `gcsx.ParseObject` stand-in used by the C9 witness. -/
def parseObjFix : String → Except Err (String × String) :=
  fun s =>
    if s = "gs://bkt/pre" then Except.ok ("bkt", "pre")
    else Except.error "bad location"

/-! Auxiliary facts about decimal rendering (`Nat.repr`), needed to show
that distinct counter values yield distinct staged object names. -/

theorem digitChar_ne_dash {m : Nat} (h : m < 10) : Nat.digitChar m ≠ '-' := by
  interval_cases m <;> decide

theorem toDigitsCore_ne_dash (fuel : Nat) :
    ∀ (n : Nat) (ds : List Char), (∀ c ∈ ds, c ≠ '-') →
      ∀ c ∈ Nat.toDigitsCore 10 fuel n ds, c ≠ '-' := by
  induction fuel with
  | zero => intro n ds h; simpa [Nat.toDigitsCore] using h
  | succ f ih =>
    intro n ds h
    have hcons : ∀ c ∈ Nat.digitChar (n % 10) :: ds, c ≠ '-' := by
      intro c hc
      rcases List.mem_cons.mp hc with h1 | h2
      · subst h1; exact digitChar_ne_dash (Nat.mod_lt n (by norm_num))
      · exact h _ h2
    simp only [Nat.toDigitsCore]
    split
    · exact hcons
    · exact ih _ _ hcons

theorem repr_data (n : Nat) : (Nat.repr n).data = Nat.toDigits 10 n := rfl

theorem repr_ne_dash (n : Nat) : ∀ c ∈ (Nat.repr n).data, c ≠ '-' := by
  intro c hc
  rw [repr_data] at hc
  exact toDigitsCore_ne_dash (n + 1) n [] (by simp) c hc

theorem toDigitsCore_acc (fuel : Nat) :
    ∀ (n : Nat) (ds : List Char),
      Nat.toDigitsCore 10 fuel n ds = Nat.toDigitsCore 10 fuel n [] ++ ds := by
  induction fuel with
  | zero => intro n ds; simp [Nat.toDigitsCore]
  | succ f ih =>
    intro n ds
    simp only [Nat.toDigitsCore]
    split
    · rfl
    · rw [ih (n / 10) (Nat.digitChar (n % 10) :: ds),
        ih (n / 10) [Nat.digitChar (n % 10)]]
      simp

theorem toDigitsCore_fuel (n : Nat) : ∀ (f1 f2 : Nat), n < f1 → n < f2 →
    Nat.toDigitsCore 10 f1 n [] = Nat.toDigitsCore 10 f2 n [] := by
  induction n using Nat.strong_induction_on with
  | _ n ih =>
    intro f1 f2 h1 h2
    cases f1 with
    | zero => omega
    | succ g1 =>
      cases f2 with
      | zero => omega
      | succ g2 =>
        simp only [Nat.toDigitsCore]
        split
        · rfl
        · rename_i hne
          have hn : 0 < n := by
            rcases Nat.eq_zero_or_pos n with h | h
            · subst h; simp at hne
            · exact h
          have hlt : n / 10 < n := Nat.div_lt_self hn (by norm_num)
          rw [toDigitsCore_acc g1 (n / 10), toDigitsCore_acc g2 (n / 10)]
          rw [ih (n / 10) hlt g1 g2 (by omega) (by omega)]

theorem toDigits_small {n : Nat} (h : n < 10) :
    Nat.toDigits 10 n = [Nat.digitChar n] := by
  have h10 : n / 10 = 0 := Nat.div_eq_of_lt h
  have hm : n % 10 = n := Nat.mod_eq_of_lt h
  simp only [Nat.toDigits, Nat.toDigitsCore, h10, hm, if_true]

theorem toDigits_step {n : Nat} (h : 10 ≤ n) :
    Nat.toDigits 10 n = Nat.toDigits 10 (n / 10) ++ [Nat.digitChar (n % 10)] := by
  have hne : ¬ n / 10 = 0 := by
    have h1 : 1 ≤ n / 10 := (Nat.one_le_div_iff (by norm_num)).mpr h
    omega
  have hlt : n / 10 < n := Nat.div_lt_self (by omega) (by norm_num)
  simp only [Nat.toDigits]
  conv_lhs => rw [Nat.toDigitsCore]
  rw [if_neg hne, toDigitsCore_acc n (n / 10),
    toDigitsCore_fuel (n / 10) n (n / 10 + 1) hlt (by omega)]

theorem digitVal_digitChar {m : Nat} (h : m < 10) :
    digitVal (Nat.digitChar m) = m := by
  interval_cases m <;> decide

theorem valDigits_append_single (xs : List Char) (c : Char) :
    valDigits (xs ++ [c]) = 10 * valDigits xs + digitVal c := by
  simp [valDigits, List.foldl_append]

theorem valDigits_toDigits (n : Nat) : valDigits (Nat.toDigits 10 n) = n := by
  induction n using Nat.strong_induction_on with
  | _ n ih =>
    by_cases h : n < 10
    · rw [toDigits_small h]
      simp [valDigits, digitVal_digitChar h]
    · push_neg at h
      rw [toDigits_step h, valDigits_append_single]
      rw [ih (n / 10) (Nat.div_lt_self (by omega) (by norm_num))]
      rw [digitVal_digitChar (Nat.mod_lt _ (by norm_num))]
      omega

theorem repr_inj {a b : Nat} (h : Nat.repr a = Nat.repr b) : a = b := by
  have hd : Nat.toDigits 10 a = Nat.toDigits 10 b := by
    have h2 := congrArg String.data h
    rwa [repr_data, repr_data] at h2
  have h3 := congrArg valDigits hd
  rwa [valDigits_toDigits, valDigits_toDigits] at h3

theorem append_dash_inj : ∀ (as cs bs ds : List Char),
    (∀ c ∈ as, c ≠ '-') → (∀ c ∈ cs, c ≠ '-') →
    as ++ '-' :: bs = cs ++ '-' :: ds → as = cs ∧ bs = ds := by
  intro as
  induction as with
  | nil =>
    intro cs bs ds _ hcs h
    cases cs with
    | nil => simpa using h
    | cons c cs2 =>
      simp only [List.nil_append, List.cons_append, List.cons.injEq] at h
      exact absurd h.1.symm (hcs c (List.mem_cons_self c cs2))
  | cons a as2 ih =>
    intro cs bs ds has hcs h
    cases cs with
    | nil =>
      simp only [List.nil_append, List.cons_append, List.cons.injEq] at h
      exact absurd h.1 (has a (List.mem_cons_self a as2))
    | cons c cs2 =>
      simp only [List.cons_append, List.cons.injEq] at h
      obtain ⟨h1, h2⟩ := h
      obtain ⟨e1, e2⟩ := ih cs2 bs ds (fun x hx => has x (List.mem_cons_of_mem a hx))
        (fun x hx => hcs x (List.mem_cons_of_mem c hx)) h2
      exact ⟨by rw [h1, e1], e2⟩

theorem string_append_cancel_left {a b c : String} (h : a ++ b = a ++ c) : b = c := by
  apply String.ext
  have h2 := congrArg String.data h
  simp only [String.data_append] at h2
  exact List.append_cancel_left h2

theorem gcsxJoin_inj_right (base : String) {s1 s2 : String}
    (h : gcsxJoin base s1 = gcsxJoin base s2) : s1 = s2 := by
  unfold gcsxJoin at h
  split at h
  · exact string_append_cancel_left h
  · exact string_append_cancel_left h

theorem dash_data : ("-" : String).data = ['-'] := rfl

theorem tagged_suffix_inj (tag : String) {i1 t1 i2 t2 : Nat}
    (h : tag ++ Nat.repr i1 ++ "-" ++ Nat.repr t1 =
         tag ++ Nat.repr i2 ++ "-" ++ Nat.repr t2) : i1 = i2 ∧ t1 = t2 := by
  have hd := congrArg String.data h
  simp only [String.data_append, dash_data, List.append_assoc,
    List.singleton_append] at hd
  have hd2 := List.append_cancel_left hd
  obtain ⟨e1, e2⟩ := append_dash_inj _ _ _ _ (repr_ne_dash i1) (repr_ne_dash i2) hd2
  exact ⟨repr_inj (String.ext e1), repr_inj (String.ext e2)⟩

theorem model_ne_worker_suffix (i1 t1 i2 t2 : Nat) :
    "model-" ++ Nat.repr i1 ++ "-" ++ Nat.repr t1 ≠
    "worker-" ++ Nat.repr i2 ++ "-" ++ Nat.repr t2 := by
  intro h
  have hd := congrArg String.data h
  have h1 : ("model-" : String).data = ['m', 'o', 'd', 'e', 'l', '-'] := rfl
  have h2 : ("worker-" : String).data = ['w', 'o', 'r', 'k', 'e', 'r', '-'] := rfl
  simp only [String.data_append, h1, h2, List.cons_append, List.nil_append,
    List.cons.injEq] at hd
  exact absurd hd.1 (by decide)

theorem modelURL_ne_workerURL (staging : String) (i1 t1 i2 t2 : Nat) :
    modelURL staging i1 t1 ≠ workerURL staging i2 t2 := by
  intro h
  exact model_ne_worker_suffix i1 t1 i2 t2 (gcsxJoin_inj_right staging h)

theorem modelURL_inj (staging : String) {i1 t1 i2 t2 : Nat} (h : i1 ≠ i2) :
    modelURL staging i1 t1 ≠ modelURL staging i2 t2 := by
  intro he
  exact h (tagged_suffix_inj "model-" (gcsxJoin_inj_right staging he)).1

theorem workerURL_inj (staging : String) {i1 t1 i2 t2 : Nat} (h : i1 ≠ i2) :
    workerURL staging i1 t1 ≠ workerURL staging i2 t2 := by
  intro he
  exact h (tagged_suffix_inj "worker-" (gcsxJoin_inj_right staging he)).1

/-! Claim theorems. -/

/-- Claim C3: for every raw input where the project identifier is empty or
the staging location is empty, `Execute` fails with the corresponding
missing-required-field error whose message names the required flag, performs
no remote call (empty event trace) and skips all remaining steps (the
counter is untouched and the run ends at once). -/
theorem execute_missing_required_fields (inp : Inputs) (env : Env) (u : Nat) :
    (inp.project = "" →
      Execute inp env u =
        ({ ret := some "no Google Cloud project specified. Use --project=<project>",
           events := [] }, u) ∧
      ∃ pre post,
        "no Google Cloud project specified. Use --project=<project>" =
          pre ++ "--project" ++ post) ∧
    (inp.project ≠ "" → inp.stagingLocation = "" →
      Execute inp env u =
        ({ ret := some "no GCS staging location specified. Use --staging_location=gs://<bucket>/<path>",
           events := [] }, u) ∧
      ∃ pre post,
        "no GCS staging location specified. Use --staging_location=gs://<bucket>/<path>" =
          pre ++ "--staging_location" ++ post) := by
  constructor
  · intro hp
    refine ⟨by simp [Execute, hp], "no Google Cloud project specified. Use ", "=<project>", by decide⟩
  · intro hp hs
    refine ⟨by simp [Execute, hp, hs], "no GCS staging location specified. Use ", "=gs://<bucket>/<path>", by decide⟩

/-- Claim C10: required-field validation is ordered: when both the project
identifier and the staging location are empty, `Execute` returns the
missing-project error (naming `--project`), not the staging-location error,
and nothing else runs. -/
theorem execute_checks_project_first (inp : Inputs) (env : Env) (u : Nat)
    (hp : inp.project = "") (_hs : inp.stagingLocation = "") :
    Execute inp env u =
      ({ ret := some "no Google Cloud project specified. Use --project=<project>",
         events := [] }, u) := by
  simp [Execute, hp]

/-- Claim C7: the resolved temp location equals the URI-join of the staging
location with `tmp` exactly when no explicit temp location is supplied;
an explicit temp location is kept unchanged. -/
theorem tempLocation_defaulting (inp : Inputs) (env : Env)
    (jl : Option (List (String × String))) :
    (optsOf inp env jl).TempLocation =
      if inp.tempLocation = "" then gcsxJoin inp.stagingLocation "tmp"
      else inp.tempLocation := by
  unfold optsOf
  by_cases h : inp.tempLocation = "" <;> simp [h]

/-- Claim C5: each staging plan names its two locations
`<staging>/model-<id>-<ts>` and `<staging>/worker-<id>-<ts>` where `<id>` is
the increment-then-read value of the process-wide counter, and for two plan
generations through that counter all four returned object names are pairwise
distinct. -/
theorem stagingPlan_names_distinct (staging : String) (u ts1 ts2 ts3 ts4 : Nat) :
    nextStagingPlan staging u ts1 ts2 =
      ({ modelObj := gcsxJoin staging ("model-" ++ Nat.repr (u + 1) ++ "-" ++ Nat.repr ts1),
         workerObj := gcsxJoin staging ("worker-" ++ Nat.repr (u + 1) ++ "-" ++ Nat.repr ts2) },
        u + 1) ∧
    nextStagingPlan staging (nextStagingPlan staging u ts1 ts2).2 ts3 ts4 =
      ({ modelObj := modelURL staging (u + 2) ts3,
         workerObj := workerURL staging (u + 2) ts4 }, u + 2) ∧
    modelURL staging (u + 1) ts1 ≠ workerURL staging (u + 1) ts2 ∧
    modelURL staging (u + 2) ts3 ≠ workerURL staging (u + 2) ts4 ∧
    modelURL staging (u + 1) ts1 ≠ modelURL staging (u + 2) ts3 ∧
    workerURL staging (u + 1) ts2 ≠ workerURL staging (u + 2) ts4 ∧
    modelURL staging (u + 1) ts1 ≠ workerURL staging (u + 2) ts4 ∧
    workerURL staging (u + 1) ts2 ≠ modelURL staging (u + 2) ts3 := by
  refine ⟨rfl, by simp [nextStagingPlan],
    modelURL_ne_workerURL staging _ _ _ _,
    modelURL_ne_workerURL staging _ _ _ _,
    modelURL_inj staging (by omega),
    workerURL_inj staging (by omega),
    modelURL_ne_workerURL staging _ _ _ _,
    (modelURL_ne_workerURL staging _ _ _ _).symm⟩

/-- Claim C4: a non-empty labels string is handed to the JSON parser; when
the parse succeeds the parsed key/value pairs reach the job options exactly
as parsed, and when it fails resolution (and with it the whole run) aborts
with an error preserving the underlying parse error text. -/
theorem labels_resolution (inp : Inputs) (env : Env) :
    (∀ m, inp.labels ≠ "" → env.parseLabels inp.labels = Except.ok m →
      resolveLabels inp env = Except.ok (some m) ∧
      (optsOf inp env (some m)).Labels = some m) ∧
    (∀ e, inp.labels ≠ "" → env.parseLabels inp.labels = Except.error e →
      resolveLabels inp env =
        Except.error ("error reading --label flag as JSON: " ++ e) ∧
      ∀ u, inp.project ≠ "" → inp.stagingLocation ≠ "" →
        (Execute inp env u).1.ret =
          some ("error reading --label flag as JSON: " ++ e)) := by
  constructor
  · intro m hne hok
    constructor
    · simp [resolveLabels, hne, hok]
    · unfold optsOf
      by_cases h : inp.tempLocation = "" <;> simp [h]
  · intro e hne herr
    have hre : resolveLabels inp env =
        Except.error ("error reading --label flag as JSON: " ++ e) := by
      simp [resolveLabels, hne, herr]
    refine ⟨hre, ?_⟩
    intro u hp hs
    simp [Execute, hp, hs, hre]

/-- Claim C6: when `graphx.Marshal` fails to produce the portable model,
`Execute` aborts with an error that identifies the compilation step and
contains the collaborator's error text, and neither translation nor
submission is attempted. -/
theorem model_compilation_failure (inp : Inputs) (env : Env) (u : Nat)
    (hp : inp.project ≠ "") (hs : inp.stagingLocation ≠ "")
    (jl : Option (List (String × String)))
    (hl : resolveLabels inp env = Except.ok jl)
    (edges : Edges) (hb : env.build = Except.ok edges)
    (e : Err) (hm : env.marshal edges (resolvedImage inp env) = Except.error e) :
    (Execute inp env u).1.ret = some ("failed to generate model pipeline: " ++ e) ∧
    (Execute inp env u).1.events.filter Event.isSubmit = [] ∧
    (Execute inp env u).1.events.filter Event.isTranslate = [] ∧
    (Execute inp env u).2 = u := by
  have hrun : Execute inp env u =
      ({ ret := some ("failed to generate model pipeline: " ++ e),
         events :=
           ((if inp.image = "" then [Event.getContainerImage] else []) ++
            (if inp.cpuProfiling = "" then []
             else [Event.enableProfHook inp.cpuProfiling]) ++
            [Event.serializeHooks]) ++ [Event.build, Event.marshal] }, u) := by
    simp [Execute, hp, hs, hl, hb, hm]
  rw [hrun]
  refine ⟨rfl, ?_, ?_, rfl⟩ <;>
    split_ifs <;> simp [Event.isSubmit, Event.isTranslate]

/-- Claim C1: with dry-run set, `Execute` never invokes the remote execution
collaborator (no submission event in any branch); after the model is
compiled and the staging plan obtained it asks the translator for a job
description, emits the model text and the translated description, and
returns a previewed success (nil error); a translation failure aborts with
the translation error. -/
theorem execute_dryRun_previews (inp : Inputs) (env : Env) (u : Nat)
    (hdry : inp.dryRun = true) :
    (Execute inp env u).1.events.filter Event.isSubmit = [] ∧
    (inp.project ≠ "" → inp.stagingLocation ≠ "" →
      ∀ jl, resolveLabels inp env = Except.ok jl →
      ∀ edges, env.build = Except.ok edges →
      ∀ model, env.marshal edges (resolvedImage inp env) = Except.ok model →
      (∀ job,
        env.translate model (optsOf inp env jl)
          (workerURL inp.stagingLocation (u + 1) env.now2)
          (modelURL inp.stagingLocation (u + 1) env.now1) = Except.ok job →
        (Execute inp env u).1.ret = none ∧
        Event.logInfo (env.marshalText model) ∈ (Execute inp env u).1.events ∧
        Event.printJob job ∈ (Execute inp env u).1.events) ∧
      (∀ e,
        env.translate model (optsOf inp env jl)
          (workerURL inp.stagingLocation (u + 1) env.now2)
          (modelURL inp.stagingLocation (u + 1) env.now1) = Except.error e →
        (Execute inp env u).1.ret = some e)) := by
  constructor
  · by_cases hp : inp.project = ""
    · simp [Execute, hp]
    · by_cases hs : inp.stagingLocation = ""
      · simp [Execute, hp, hs]
      · rcases hre : resolveLabels inp env with e | jl
        · simp [Execute, hp, hs, hre, Event.isSubmit]
        · rcases hb : env.build with e | edges
          · simp [Execute, hp, hs, hre, hb, Event.isSubmit]
          · rcases hm : env.marshal edges (resolvedImage inp env) with e | model
            · simp [Execute, hp, hs, hre, hb, hm, Event.isSubmit]
            · rcases htr : env.translate model (optsOf inp env jl)
                  (workerURL inp.stagingLocation (u + 1) env.now2)
                  (modelURL inp.stagingLocation (u + 1) env.now1) with e | job
              · simp [Execute, hp, hs, hre, hb, hm, hdry, htr, Event.isSubmit]
              · simp [Execute, hp, hs, hre, hb, hm, hdry, htr, Event.isSubmit]
  · intro hp hs jl hre edges hb model hm
    constructor
    · intro job htr
      refine ⟨?_, ?_, ?_⟩ <;> simp [Execute, hp, hs, hre, hb, hm, hdry, htr]
    · intro e htr
      simp [Execute, hp, hs, hre, hb, hm, hdry, htr]

/-- Claim C2 (amended): with dry-run unset, `Execute` invokes the execution
collaborator exactly once with the compiled model, the resolved options and
the staging names; it surfaces the collaborator's error unchanged and with
no wrapping, and on success it returns success (a nil error), discarding
the collaborator's job handle. -/
theorem execute_submit_passthrough (inp : Inputs) (env : Env) (u : Nat)
    (hdry : inp.dryRun = false)
    (hp : inp.project ≠ "") (hs : inp.stagingLocation ≠ "")
    (jl : Option (List (String × String)))
    (hl : resolveLabels inp env = Except.ok jl)
    (edges : Edges) (hb : env.build = Except.ok edges)
    (model : Model)
    (hm : env.marshal edges (resolvedImage inp env) = Except.ok model) :
    (∀ h, env.submit model (optsOf inp env jl)
        (workerURL inp.stagingLocation (u + 1) env.now2)
        (modelURL inp.stagingLocation (u + 1) env.now1) inp.endpoint = Except.ok h →
      (Execute inp env u).1.ret = none) ∧
    (∀ e, env.submit model (optsOf inp env jl)
        (workerURL inp.stagingLocation (u + 1) env.now2)
        (modelURL inp.stagingLocation (u + 1) env.now1) inp.endpoint = Except.error e →
      (Execute inp env u).1.ret = some e) ∧
    (Execute inp env u).1.events.filter Event.isSubmit =
      [Event.submitCall model (optsOf inp env jl)
        (workerURL inp.stagingLocation (u + 1) env.now2)
        (modelURL inp.stagingLocation (u + 1) env.now1) inp.endpoint] := by
  refine ⟨?_, ?_, ?_⟩
  · intro h hsub
    simp [Execute, hp, hs, hl, hb, hm, hdry, hsub]
  · intro e hsub
    simp [Execute, hp, hs, hl, hb, hm, hdry, hsub]
  · have hrun : (Execute inp env u).1.events =
        ((if inp.image = "" then [Event.getContainerImage] else []) ++
         (if inp.cpuProfiling = "" then []
          else [Event.enableProfHook inp.cpuProfiling]) ++
         [Event.serializeHooks]) ++ [Event.build, Event.marshal] ++
        [Event.submitCall model (optsOf inp env jl)
          (workerURL inp.stagingLocation (u + 1) env.now2)
          (modelURL inp.stagingLocation (u + 1) env.now1) inp.endpoint] := by
      simp [Execute, hp, hs, hl, hb, hm, hdry]
    rw [hrun]
    split_ifs <;> simp [Event.isSubmit]

/-- Claim C2 counterexample: two runs whose execution collaborators succeed
with different job handles produce identical `Execute` results, so the
value returned by `Execute` does not contain the collaborator's job handle:
the code discards the handle and returns only the error value. -/
theorem execute_submit_handle_counterexample :
    envSubmitA.submit 2 (optsOf inpSubmit envSubmitA none)
      (workerURL "gs://b/s" 1 12) (modelURL "gs://b/s" 1 11) "ep" = Except.ok 1 ∧
    envSubmitB.submit 2 (optsOf inpSubmit envSubmitB none)
      (workerURL "gs://b/s" 1 12) (modelURL "gs://b/s" 1 11) "ep" = Except.ok 2 ∧
    (1 : JobHandle) ≠ 2 ∧
    Execute inpSubmit envSubmitA 0 = Execute inpSubmit envSubmitB 0 := by
  exact ⟨rfl, rfl, by decide, rfl⟩

/-- Claim C8: each capture invocation writes the stream to the path-join of
the registered prefix with the spec (for example prefix `profiles/run42`
and spec `trace-1` give object path `profiles/run42/trace-1`); if the
storage client cannot be constructed the invocation only returns an error
wrapping the cause. -/
theorem capture_sink_behavior (genv : GcsEnv) (bucket pfx spec : String)
    (r : Reader) :
    (∀ c, genv.newClient = Except.ok c →
      captureFn bucket pfx genv spec r =
        CaptureOutcome.wrote bucket (pathJoin pfx spec)
          (genv.writeObject c bucket (pathJoin pfx spec) r)) ∧
    (∀ e, genv.newClient = Except.error e →
      captureFn bucket pfx genv spec r =
        CaptureOutcome.clientError ("couldn't establish GCS client: " ++ e)) ∧
    pathJoin "profiles/run42" "trace-1" = "profiles/run42/trace-1" := by
  refine ⟨?_, ?_, by decide⟩
  · intro c hc
    simp [captureFn, hc]
  · intro e he
    simp [captureFn, he]

/-- Claim C9: a destination string the parser cannot split into a
bucket/prefix pair makes hook registration panic (an irrecoverable abort
yielding no capture function, not a returned error); a parseable
destination registers a capture function whose bucket and prefix are fixed
for every subsequent invocation. -/
theorem hook_registration_fixed (parse : String → Except Err (String × String))
    (o : String) (rest : List String) :
    (∀ e, parse o = Except.error e →
      gcsRecorderHook parse (o :: rest) =
        HookResult.panicked
          ("Invalid hook configuration for gcsRecorderHook: " ++
            fmtStrSlice (o :: rest)) ∧
      ∀ genv spec r, applyHook (gcsRecorderHook parse (o :: rest)) genv spec r = none) ∧
    (∀ bucket pfx, parse o = Except.ok (bucket, pfx) →
      gcsRecorderHook parse (o :: rest) = HookResult.registered bucket pfx ∧
      ∀ genv spec r,
        applyHook (gcsRecorderHook parse (o :: rest)) genv spec r =
          some (captureFn bucket pfx genv spec r)) := by
  constructor
  · intro e he
    have h1 : gcsRecorderHook parse (o :: rest) =
        HookResult.panicked
          ("Invalid hook configuration for gcsRecorderHook: " ++
            fmtStrSlice (o :: rest)) := by
      simp [gcsRecorderHook, he]
    exact ⟨h1, fun genv spec r => by rw [h1]; rfl⟩
  · intro bucket pfx hok
    have h1 : gcsRecorderHook parse (o :: rest) = HookResult.registered bucket pfx := by
      simp [gcsRecorderHook, hok]
    exact ⟨h1, fun genv spec r => by rw [h1]; rfl⟩

/-! Witnesses: each applies its claim theorem at a concrete input. -/

/-- Witness for C1 at a concrete dry-run configuration. -/
theorem execute_dryRun_previews_witness :
    (Execute inpBase envBase 0).1.events.filter Event.isSubmit = [] ∧
    (Execute inpBase envBase 0).1.ret = none ∧
    Event.printJob 7 ∈ (Execute inpBase envBase 0).1.events := by
  have h := execute_dryRun_previews inpBase envBase 0 rfl
  have h2 := (h.2 (by decide) (by decide) none rfl 1 rfl 2 rfl).1 7 rfl
  exact ⟨h.1, h2.1, h2.2.2⟩

/-- Witness for C2 (amended) at concrete submission configurations. -/
theorem execute_submit_passthrough_witness :
    (Execute inpSubmit envSubmitA 0).1.ret = none ∧
    (Execute inpSubmit envSubmitErr 0).1.ret = some "submit failed" := by
  constructor
  · exact (execute_submit_passthrough inpSubmit envSubmitA 0 rfl (by decide) (by decide)
      none rfl 1 rfl 2 rfl).1 1 rfl
  · exact ((execute_submit_passthrough inpSubmit envSubmitErr 0 rfl (by decide) (by decide)
      none rfl 1 rfl 2 rfl).2).1 "submit failed" rfl

/-- Witness for C3 at concrete invalid inputs. -/
theorem execute_missing_required_fields_witness :
    Execute { inpBase with project := "" } envBase 0 =
      ({ ret := some "no Google Cloud project specified. Use --project=<project>",
         events := [] }, 0) ∧
    Execute { inpBase with stagingLocation := "" } envBase 0 =
      ({ ret := some "no GCS staging location specified. Use --staging_location=gs://<bucket>/<path>",
         events := [] }, 0) := by
  constructor
  · exact ((execute_missing_required_fields { inpBase with project := "" } envBase 0).1 rfl).1
  · exact ((execute_missing_required_fields { inpBase with stagingLocation := "" } envBase 0).2
      (by decide) rfl).1

/-- Witness for C4 at a parse success and a parse failure. -/
theorem labels_resolution_witness :
    resolveLabels { inpBase with labels := "good" } envBase =
      Except.ok (some [("a", "b")]) ∧
    (optsOf { inpBase with labels := "good" } envBase (some [("a", "b")])).Labels =
      some [("a", "b")] ∧
    (Execute { inpBase with labels := "oops" } envBase 0).1.ret =
      some ("error reading --label flag as JSON: " ++ "bad syntax") := by
  have h1 := (labels_resolution { inpBase with labels := "good" } envBase).1
    [("a", "b")] (by decide) rfl
  have h2 := (labels_resolution { inpBase with labels := "oops" } envBase).2
    "bad syntax" (by decide) rfl
  exact ⟨h1.1, h1.2, h2.2 0 (by decide) (by decide)⟩

/-- Witness for C6 at a concrete marshalling failure. -/
theorem model_compilation_failure_witness :
    (Execute inpBase envMarshalErr 0).1.ret =
      some ("failed to generate model pipeline: " ++ "marshal boom") ∧
    (Execute inpBase envMarshalErr 0).2 = 0 := by
  have h := model_compilation_failure inpBase envMarshalErr 0 (by decide) (by decide)
    none rfl 1 rfl "marshal boom" rfl
  exact ⟨h.1, h.2.2.2⟩

/-- Witness for C8 at the concrete storage collaborators. -/
theorem capture_sink_behavior_witness :
    captureFn "bkt" "profiles/run42" genvOk "trace-1" 0 =
      CaptureOutcome.wrote "bkt" "profiles/run42/trace-1" none ∧
    captureFn "bkt" "profiles/run42" genvBad "trace-1" 0 =
      CaptureOutcome.clientError ("couldn't establish GCS client: " ++ "no credentials") := by
  have h := capture_sink_behavior genvOk "bkt" "profiles/run42" "trace-1" 0
  have hb := capture_sink_behavior genvBad "bkt" "profiles/run42" "trace-1" 0
  constructor
  · rw [h.1 5 rfl, h.2.2]
    rfl
  · exact (hb.2).1 "no credentials" rfl

/-- Witness for C9 at a parseable and an unparseable destination. -/
theorem hook_registration_fixed_witness :
    gcsRecorderHook parseObjFix ["gs://bkt/pre"] = HookResult.registered "bkt" "pre" ∧
    applyHook (gcsRecorderHook parseObjFix ["gs://bkt/pre"]) genvOk "trace-1" 0 =
      some (captureFn "bkt" "pre" genvOk "trace-1" 0) ∧
    gcsRecorderHook parseObjFix ["nonsense"] =
      HookResult.panicked
        ("Invalid hook configuration for gcsRecorderHook: " ++
          fmtStrSlice ["nonsense"]) := by
  have hg := (hook_registration_fixed parseObjFix "gs://bkt/pre" []).2 "bkt" "pre" rfl
  have hbad := (hook_registration_fixed parseObjFix "nonsense" []).1 "bad location" rfl
  exact ⟨hg.1, hg.2 genvOk "trace-1" 0, hbad.1⟩

/-- Witness for C10 at a concrete input with both required fields empty. -/
theorem execute_checks_project_first_witness :
    Execute { inpBase with project := "", stagingLocation := "" } envBase 0 =
      ({ ret := some "no Google Cloud project specified. Use --project=<project>",
         events := [] }, 0) :=
  execute_checks_project_first { inpBase with project := "", stagingLocation := "" }
    envBase 0 rfl rfl

end Beam
